import Mathlib

/-!
Verification of photutils/background/core.py.

The module computes a scalar background (or background rms) from a possibly
masked numeric array.  Every statistic it uses (mean, median, std, mad_std,
biweight location, biweight midvariance) and the sigma-clipping step are
external collaborators consumed as black boxes, so the embedding is
parameterized over a record of those primitives.  A masked array is modelled
by the list of its unmasked values (all primitives ignore masked elements);
a masked scalar result is modelled by Option (none = masked sentinel, as
produced by the primitives on empty input).  Machine floats are modelled by
exact rationals.
-/

/-- The external statistical primitives and the sigma-clipping primitive,
consumed as black boxes.  sigma_clip takes the data, sigma, sigma_lower,
sigma_upper and the iteration cap (none = iterate to convergence). -/
structure Primitives where
  mean : List ℚ → Option ℚ
  median : List ℚ → Option ℚ
  std : List ℚ → Option ℚ
  mad_std : List ℚ → Option ℚ
  biweight_location : List ℚ → ℚ → Option ℚ → Option ℚ
  biweight_midvariance : List ℚ → ℚ → Option ℚ → Option ℚ
  sigma_clip : List ℚ → ℚ → Option ℚ → Option ℚ → Option ℤ → List ℚ

/-- Configuration stored by BackgroundBase.__init__: the five constructor
arguments are assigned verbatim to instance attributes. -/
structure BackgroundBase where
  sigclip : Bool
  sigma : ℚ
  sigma_lower : Option ℚ
  sigma_upper : Option ℚ
  iters : Option ℤ
deriving DecidableEq

/-- BackgroundBase.__init__(sigclip=True, sigma=3, sigma_lower=None,
sigma_upper=None, iters=5): stores each argument verbatim, no validation. -/
def BackgroundBase.make (sigclip : Bool) (sigma : ℚ) (sigma_lower : Option ℚ)
    (sigma_upper : Option ℚ) (iters : Option ℤ) : BackgroundBase :=
  { sigclip := sigclip, sigma := sigma, sigma_lower := sigma_lower,
    sigma_upper := sigma_upper, iters := iters }

/-- BackgroundBase.sigma_clip: delegates to the external sigma_clip primitive
with the stored configuration. -/
def BackgroundBase.sigma_clip (p : Primitives) (cfg : BackgroundBase)
    (data : List ℚ) : List ℚ :=
  p.sigma_clip data cfg.sigma cfg.sigma_lower cfg.sigma_upper cfg.iters

/-- The shared preamble of every calc method:
if self.sigclip: data = self.sigma_clip(data). -/
def clipIf (p : Primitives) (cfg : BackgroundBase) (data : List ℚ) : List ℚ :=
  if cfg.sigclip then BackgroundBase.sigma_clip p cfg data else data

/-! Masked-scalar arithmetic: numpy masked scalars propagate the mask through
arithmetic, and a comparison involving a masked value is falsy. -/

/-- Subtraction of masked scalars (mask propagates). -/
def mSub (x y : Option ℚ) : Option ℚ :=
  match x, y with
  | some a, some b => some (a - b)
  | _, _ => none

/-- Multiplication of a masked scalar by a plain constant. -/
def mScale (c : ℚ) (x : Option ℚ) : Option ℚ :=
  x.map (fun v => c * v)

/-- Absolute value of a masked scalar. -/
def mAbs (x : Option ℚ) : Option ℚ :=
  x.map (fun v => |v|)

/-- Division of masked scalars (mask propagates). -/
def mDiv (x y : Option ℚ) : Option ℚ :=
  match x, y with
  | some a, some b => some (a / b)
  | _, _ => none

/-- Equality test against a constant: falsy when the value is masked. -/
def mEq (x : Option ℚ) (c : ℚ) : Bool :=
  match x with
  | some v => decide (v = c)
  | none => false

/-- Strict less-than against a constant: falsy when the value is masked. -/
def mLt (x : Option ℚ) (c : ℚ) : Bool :=
  match x with
  | some v => decide (v < c)
  | none => false

/-! The estimator classes.  Each calc method is embedded twice over: a run
function threading the instance state explicitly (the Python body never
assigns to self, so the state it returns is the state it received), and the
calc function proper as its first component. -/

/-- MeanBackground.calc_background: np.ma.mean of the (optionally clipped)
data. -/
def MeanBackground.run (p : Primitives) (s : BackgroundBase) (data : List ℚ) :
    Option ℚ × BackgroundBase :=
  let d := clipIf p s data
  (p.mean d, s)

/-- MeanBackground.calc_background, result only. -/
def MeanBackground.calc_background (p : Primitives) (s : BackgroundBase)
    (data : List ℚ) : Option ℚ :=
  (MeanBackground.run p s data).1

/-- MedianBackground.calc_background: np.ma.median of the (optionally
clipped) data. -/
def MedianBackground.run (p : Primitives) (s : BackgroundBase)
    (data : List ℚ) : Option ℚ × BackgroundBase :=
  let d := clipIf p s data
  (p.median d, s)

/-- MedianBackground.calc_background, result only. -/
def MedianBackground.calc_background (p : Primitives) (s : BackgroundBase)
    (data : List ℚ) : Option ℚ :=
  (MedianBackground.run p s data).1

/-- The MMM statistic (3 * median) - (2 * mean). -/
def mmmFormula (p : Primitives) (d : List ℚ) : Option ℚ :=
  mSub (mScale 3 (p.median d)) (mScale 2 (p.mean d))

/-- MMMBackground.calc_background:
(3. * np.ma.median(data)) - (2. * np.ma.mean(data)). -/
def MMMBackground.run (p : Primitives) (s : BackgroundBase) (data : List ℚ) :
    Option ℚ × BackgroundBase :=
  let d := clipIf p s data
  (mmmFormula p d, s)

/-- MMMBackground.calc_background, result only. -/
def MMMBackground.calc_background (p : Primitives) (s : BackgroundBase)
    (data : List ℚ) : Option ℚ :=
  (MMMBackground.run p s data).1

/-- The SExtractor statistic applied after optional clipping:
if std == 0 return mean; if abs(mean - median) / std < 0.3 return
2.5 * median - 1.5 * mean; else return median. -/
def sextractorFormula (p : Primitives) (d : List ℚ) : Option ℚ :=
  let med := p.median d
  let mea := p.mean d
  let st := p.std d
  if mEq st 0 then mea
  else if mLt (mDiv (mAbs (mSub mea med)) st) (3 / 10) then
    mSub (mScale (5 / 2) med) (mScale (3 / 2) mea)
  else med

/-- SExtractorBackground.calc_background. -/
def SExtractorBackground.run (p : Primitives) (s : BackgroundBase)
    (data : List ℚ) : Option ℚ × BackgroundBase :=
  let d := clipIf p s data
  (sextractorFormula p d, s)

/-- SExtractorBackground.calc_background, result only. -/
def SExtractorBackground.calc_background (p : Primitives) (s : BackgroundBase)
    (data : List ℚ) : Option ℚ :=
  (SExtractorBackground.run p s data).1

/-- Configuration stored by BiweightLocationBackground.__init__(c=6, M=None,
**kwargs): the base configuration plus the c and M attributes. -/
structure BiweightLocationBackground where
  toBase : BackgroundBase
  c : ℚ
  M : Option ℚ
deriving DecidableEq

/-- BiweightLocationBackground.__init__: stores c and M verbatim on top of
the base constructor. -/
def BiweightLocationBackground.make (c : ℚ) (M : Option ℚ) (sigclip : Bool)
    (sigma : ℚ) (sigma_lower : Option ℚ) (sigma_upper : Option ℚ)
    (iters : Option ℤ) : BiweightLocationBackground :=
  { toBase := BackgroundBase.make sigclip sigma sigma_lower sigma_upper iters,
    c := c, M := M }

/-- BiweightLocationBackground.calc_background:
biweight_location(data, c=self.c, M=self.M). -/
def BiweightLocationBackground.run (p : Primitives)
    (s : BiweightLocationBackground) (data : List ℚ) :
    Option ℚ × BiweightLocationBackground :=
  let d := clipIf p s.toBase data
  (p.biweight_location d s.c s.M, s)

/-- BiweightLocationBackground.calc_background, result only. -/
def BiweightLocationBackground.calc_background (p : Primitives)
    (s : BiweightLocationBackground) (data : List ℚ) : Option ℚ :=
  (BiweightLocationBackground.run p s data).1

/-- StdBackgroundRMS.calc_background_rms: np.ma.std of the (optionally
clipped) data. -/
def StdBackgroundRMS.run (p : Primitives) (s : BackgroundBase)
    (data : List ℚ) : Option ℚ × BackgroundBase :=
  let d := clipIf p s data
  (p.std d, s)

/-- StdBackgroundRMS.calc_background_rms, result only. -/
def StdBackgroundRMS.calc_background_rms (p : Primitives) (s : BackgroundBase)
    (data : List ℚ) : Option ℚ :=
  (StdBackgroundRMS.run p s data).1

/-- MADStdBackgroundRMS.calc_background_rms: mad_std of the (optionally
clipped) data. -/
def MADStdBackgroundRMS.run (p : Primitives) (s : BackgroundBase)
    (data : List ℚ) : Option ℚ × BackgroundBase :=
  let d := clipIf p s data
  (p.mad_std d, s)

/-- MADStdBackgroundRMS.calc_background_rms, result only. -/
def MADStdBackgroundRMS.calc_background_rms (p : Primitives)
    (s : BackgroundBase) (data : List ℚ) : Option ℚ :=
  (MADStdBackgroundRMS.run p s data).1

/-- Configuration stored by BiweightMidvarianceBackgroundRMS.__init__(c=9.0,
M=None, **kwargs). -/
structure BiweightMidvarianceBackgroundRMS where
  toBase : BackgroundBase
  c : ℚ
  M : Option ℚ
deriving DecidableEq

/-- BiweightMidvarianceBackgroundRMS.__init__: stores c and M verbatim on top
of the base constructor. -/
def BiweightMidvarianceBackgroundRMS.make (c : ℚ) (M : Option ℚ)
    (sigclip : Bool) (sigma : ℚ) (sigma_lower : Option ℚ)
    (sigma_upper : Option ℚ) (iters : Option ℤ) :
    BiweightMidvarianceBackgroundRMS :=
  { toBase := BackgroundBase.make sigclip sigma sigma_lower sigma_upper iters,
    c := c, M := M }

/-- BiweightMidvarianceBackgroundRMS.calc_background_rms:
biweight_midvariance(data, c=self.c, M=self.M). -/
def BiweightMidvarianceBackgroundRMS.run (p : Primitives)
    (s : BiweightMidvarianceBackgroundRMS) (data : List ℚ) :
    Option ℚ × BiweightMidvarianceBackgroundRMS :=
  let d := clipIf p s.toBase data
  (p.biweight_midvariance d s.c s.M, s)

/-- BiweightMidvarianceBackgroundRMS.calc_background_rms, result only. -/
def BiweightMidvarianceBackgroundRMS.calc_background_rms (p : Primitives)
    (s : BiweightMidvarianceBackgroundRMS) (data : List ℚ) : Option ℚ :=
  (BiweightMidvarianceBackgroundRMS.run p s data).1

/-! The public surface: the __all__ list of the module, split by which calc
method each listed class defines (calc_background vs calc_background_rms). -/

/-- The names in __all__ that define calc_background (background-level
estimators). -/
def backgroundLevelExports : List String :=
  ["MeanBackground", "MedianBackground", "MMMBackground",
   "SExtractorBackground", "BiweightLocationBackground"]

/-- The names in __all__ that define calc_background_rms (background-RMS
estimators). -/
def backgroundRMSExports : List String :=
  ["StdBackgroundRMS", "MADStdBackgroundRMS",
   "BiweightMidvarianceBackgroundRMS"]

/-- The __all__ list of the module, verbatim and in order. -/
def allExports : List String :=
  ["MeanBackground", "MedianBackground", "MMMBackground",
   "SExtractorBackground", "BiweightLocationBackground",
   "StdBackgroundRMS", "MADStdBackgroundRMS",
   "BiweightMidvarianceBackgroundRMS"]

/-! Concrete rational-valued instantiations of the external primitives, used
to exercise the theorems on explicit inputs.  mean, median and the population
variance are exact; the square root and the MAD scaling follow the contracts
stated for the external primitives. -/

/-- Arithmetic mean of a list of rationals; none on empty input. -/
def meanQ (l : List ℚ) : Option ℚ :=
  match l with
  | [] => none
  | _ => some (l.sum / (l.length : ℚ))

/-- Median of a list of rationals (average of the two middle elements of the
sorted list); none on empty input. -/
def medianQ (l : List ℚ) : Option ℚ :=
  let s := List.insertionSort (fun a b => a ≤ b) l
  match s.get? ((s.length - 1) / 2), s.get? (s.length / 2) with
  | some a, some b => some ((a + b) / 2)
  | _, _ => none

/-- Population variance; none on empty input. -/
def varQ (l : List ℚ) : Option ℚ :=
  (meanQ l).map (fun m => ((l.map (fun x => (x - m) ^ 2)).sum) / (l.length : ℚ))

/-- Exact rational square root when it exists. -/
def sqrtQ (q : ℚ) : Option ℚ :=
  let r : ℚ := ((Nat.sqrt q.num.toNat : ℚ)) / ((Nat.sqrt q.den : ℚ))
  if 0 ≤ q ∧ r * r = q then some r else none

/-- Population standard deviation (exact, defined when the variance is a
rational square). -/
def stdQ (l : List ℚ) : Option ℚ :=
  (varQ l).bind sqrtQ

/-- Median absolute deviation: median of the absolute deviations from the
median; none on empty input. -/
def madQ (l : List ℚ) : Option ℚ :=
  (medianQ l).bind (fun m => medianQ (l.map (fun x => |x - m|)))

/-- Modelled from the spec: the external mad_std primitive (astropy), whose
contract there is the median absolute deviation scaled by the constant
1.4826. -/
def madStdSpec (l : List ℚ) : Option ℚ :=
  (madQ l).map (fun x => 14826 / 10000 * x)

/-- A concrete Primitives record: exact mean, median, std and mad_std; the
median and the exact std stand in for the black-box biweight estimators, and
sigma_clip is the clipping instance that rejects nothing. -/
def ratPrims : Primitives where
  mean := meanQ
  median := medianQ
  std := stdQ
  mad_std := madStdSpec
  biweight_location := fun l _ _ => medianQ l
  biweight_midvariance := fun l _ _ => stdQ l
  sigma_clip := fun data _ _ _ _ => data

/-- Claim C1: SExtractorBackground computes its background (after optional
sigma clipping) as the mean when the standard deviation reported for the data
is 0; otherwise, when abs(mean - median) / std is strictly below 0.3 it
returns 2.5 * median - 1.5 * mean, and otherwise (the boundary 0.3 included)
it returns the median. -/
theorem sextractor_branch_spec (p : Primitives) (cfg : BackgroundBase)
    (data : List ℚ) (mu m s : ℚ)
    (hmu : p.mean (clipIf p cfg data) = some mu)
    (hm : p.median (clipIf p cfg data) = some m)
    (hs : p.std (clipIf p cfg data) = some s) :
    SExtractorBackground.calc_background p cfg data =
      if s = 0 then some mu
      else if |mu - m| / s < 3 / 10 then some (5 / 2 * m - 3 / 2 * mu)
      else some m := by
  show sextractorFormula p (clipIf p cfg data) = _
  unfold sextractorFormula
  rw [hmu, hm, hs]
  by_cases h0 : s = 0
  · simp [mEq, h0]
  · by_cases h1 : |mu - m| / s < 3 / 10
    · simp [mEq, h0, mLt, mDiv, mAbs, mSub, mScale, h1]
    · simp [mEq, h0, mLt, mDiv, mAbs, mSub, mScale, h1]

theorem sextractor_branch_spec_witness :
    (SExtractorBackground.calc_background ratPrims
      (BackgroundBase.make false 3 none none (some 5)) [1, 1, 3, 3] = some 2) := by
  have h := sextractor_branch_spec ratPrims
      (BackgroundBase.make false 3 none none (some 5)) [1, 1, 3, 3] 2 2 1
      (by norm_num [ratPrims, clipIf, BackgroundBase.make, meanQ])
      (by norm_num [ratPrims, clipIf, BackgroundBase.make, medianQ,
        List.insertionSort, List.orderedInsert])
      (by norm_num [ratPrims, clipIf, BackgroundBase.make, stdQ, varQ, meanQ, sqrtQ])
  rw [h]
  norm_num

/-- Claim C2: with clipping disabled, MMMBackground returns exactly
3 * median(data) - 2 * mean(data) whenever the mean and median primitives
produce unmasked values on the data. -/
theorem mmm_noclip_formula (p : Primitives) (cfg : BackgroundBase)
    (data : List ℚ) (m mu : ℚ) (hclip : cfg.sigclip = false)
    (hm : p.median data = some m) (hmu : p.mean data = some mu) :
    MMMBackground.calc_background p cfg data = some (3 * m - 2 * mu) := by
  show mmmFormula p (clipIf p cfg data) = _
  unfold clipIf
  rw [hclip]
  unfold mmmFormula
  simp [hm, hmu, mSub, mScale]

theorem mmm_noclip_formula_witness :
    MMMBackground.calc_background ratPrims
      (BackgroundBase.make false 3 none none (some 5)) [1, 2, 3, 4] = some (5 / 2) := by
  have h := mmm_noclip_formula ratPrims
      (BackgroundBase.make false 3 none none (some 5)) [1, 2, 3, 4] (5 / 2) (5 / 2)
      (by norm_num [BackgroundBase.make])
      (by norm_num [ratPrims, medianQ, List.insertionSort, List.orderedInsert])
      (by norm_num [ratPrims, meanQ])
  rw [h]
  norm_num

/-- Claim C3: for every estimator, when the configuration has sigclip set to
false the sigma-clipping step is not applied at all: the result equals the
estimator statistic computed directly on the raw input. -/
theorem sigclip_false_skips_clipping (p : Primitives) (s : BackgroundBase)
    (bl : BiweightLocationBackground) (bv : BiweightMidvarianceBackgroundRMS)
    (data : List ℚ) (hs : s.sigclip = false)
    (hbl : bl.toBase.sigclip = false) (hbv : bv.toBase.sigclip = false) :
    MeanBackground.calc_background p s data = p.mean data ∧
    MedianBackground.calc_background p s data = p.median data ∧
    MMMBackground.calc_background p s data = mmmFormula p data ∧
    SExtractorBackground.calc_background p s data = sextractorFormula p data ∧
    BiweightLocationBackground.calc_background p bl data =
      p.biweight_location data bl.c bl.M ∧
    StdBackgroundRMS.calc_background_rms p s data = p.std data ∧
    MADStdBackgroundRMS.calc_background_rms p s data = p.mad_std data ∧
    BiweightMidvarianceBackgroundRMS.calc_background_rms p bv data =
      p.biweight_midvariance data bv.c bv.M := by
  unfold MeanBackground.calc_background MeanBackground.run
    MedianBackground.calc_background MedianBackground.run
    MMMBackground.calc_background MMMBackground.run
    SExtractorBackground.calc_background SExtractorBackground.run
    BiweightLocationBackground.calc_background BiweightLocationBackground.run
    StdBackgroundRMS.calc_background_rms StdBackgroundRMS.run
    MADStdBackgroundRMS.calc_background_rms MADStdBackgroundRMS.run
    BiweightMidvarianceBackgroundRMS.calc_background_rms
    BiweightMidvarianceBackgroundRMS.run clipIf
  rw [hs, hbl, hbv]
  simp

theorem sigclip_false_skips_clipping_witness :
    MeanBackground.calc_background ratPrims
      (BackgroundBase.make false 3 none none (some 5)) [1, 2, 3, 4] =
      ratPrims.mean [1, 2, 3, 4] := by
  have h := sigclip_false_skips_clipping ratPrims
      (BackgroundBase.make false 3 none none (some 5))
      (BiweightLocationBackground.make 6 none false 3 none none (some 5))
      (BiweightMidvarianceBackgroundRMS.make 9 none false 3 none none (some 5))
      [1, 2, 3, 4] rfl rfl rfl
  exact h.1

/-- Claim C4, counterexample: the module does not expose 7 background-level
estimator variants; its public list names only 5 of them (together with the
3 background-RMS variants). -/
theorem export_counts_counterexample :
    ¬ (backgroundLevelExports.length = 7 ∧ backgroundRMSExports.length = 3) := by
  decide

/-- Claim C4, amended: the public surface exposes exactly 5 background-level
estimator variants and 3 background-RMS estimator variants, and those 8 names
are the whole export list of the module, in order. -/
theorem export_counts :
    backgroundLevelExports.length = 5 ∧ backgroundRMSExports.length = 3 ∧
    allExports = backgroundLevelExports ++ backgroundRMSExports := by
  refine ⟨rfl, rfl, rfl⟩

/-- Claim C5: degenerate input (all elements masked, or zero-length, both
modelled by the empty list of unmasked values) does not raise from this
module: every estimator returns the masked/NaN sentinel propagated from the
underlying primitives, which yield the sentinel on empty input and whose
clipping step keeps empty input empty. -/
theorem degenerate_input_propagates (p : Primitives) (s : BackgroundBase)
    (bl : BiweightLocationBackground) (bv : BiweightMidvarianceBackgroundRMS)
    (hc : ∀ sg lo hi it, p.sigma_clip [] sg lo hi it = [])
    (hmean : p.mean [] = none) (hmed : p.median [] = none)
    (hstd : p.std [] = none) (hmad : p.mad_std [] = none)
    (hbl2 : p.biweight_location [] bl.c bl.M = none)
    (hbv2 : p.biweight_midvariance [] bv.c bv.M = none) :
    MeanBackground.calc_background p s [] = none ∧
    MedianBackground.calc_background p s [] = none ∧
    MMMBackground.calc_background p s [] = none ∧
    SExtractorBackground.calc_background p s [] = none ∧
    BiweightLocationBackground.calc_background p bl [] = none ∧
    StdBackgroundRMS.calc_background_rms p s [] = none ∧
    MADStdBackgroundRMS.calc_background_rms p s [] = none ∧
    BiweightMidvarianceBackgroundRMS.calc_background_rms p bv [] = none := by
  have hclip : ∀ cfg : BackgroundBase, clipIf p cfg [] = [] := by
    intro cfg
    unfold clipIf BackgroundBase.sigma_clip
    split
    · exact hc _ _ _ _
    · rfl
  unfold MeanBackground.calc_background MeanBackground.run
    MedianBackground.calc_background MedianBackground.run
    MMMBackground.calc_background MMMBackground.run
    SExtractorBackground.calc_background SExtractorBackground.run
    BiweightLocationBackground.calc_background BiweightLocationBackground.run
    StdBackgroundRMS.calc_background_rms StdBackgroundRMS.run
    MADStdBackgroundRMS.calc_background_rms MADStdBackgroundRMS.run
    BiweightMidvarianceBackgroundRMS.calc_background_rms
    BiweightMidvarianceBackgroundRMS.run
  rw [hclip s, hclip bl.toBase, hclip bv.toBase]
  unfold mmmFormula sextractorFormula
  simp [hmean, hmed, hstd, hmad, hbl2, hbv2, mEq, mLt, mDiv, mAbs, mSub, mScale]

theorem degenerate_input_propagates_witness :
    SExtractorBackground.calc_background ratPrims
      (BackgroundBase.make true 3 none none (some 5)) [] = none := by
  have h := degenerate_input_propagates ratPrims
      (BackgroundBase.make true 3 none none (some 5))
      (BiweightLocationBackground.make 6 none true 3 none none (some 5))
      (BiweightMidvarianceBackgroundRMS.make 9 none true 3 none none (some 5))
      (fun _ _ _ _ => rfl) rfl rfl rfl rfl rfl rfl
  exact h.2.2.2.1

/-- Claim C6: each of the three RMS estimators returns a non-negative scalar
whenever it returns an unmasked value, given that the standard-deviation,
MAD-based and biweight-midvariance primitives are non-negative on the
(optionally clipped) data, as their dispersion contracts state. -/
theorem rms_estimators_nonneg (p : Primitives) (s : BackgroundBase)
    (bv : BiweightMidvarianceBackgroundRMS) (data : List ℚ)
    (hstd : ∀ w, p.std (clipIf p s data) = some w → 0 ≤ w)
    (hmad : ∀ w, p.mad_std (clipIf p s data) = some w → 0 ≤ w)
    (hbv : ∀ w, p.biweight_midvariance (clipIf p bv.toBase data) bv.c bv.M =
      some w → 0 ≤ w) :
    (∀ w, StdBackgroundRMS.calc_background_rms p s data = some w → 0 ≤ w) ∧
    (∀ w, MADStdBackgroundRMS.calc_background_rms p s data = some w → 0 ≤ w) ∧
    (∀ w, BiweightMidvarianceBackgroundRMS.calc_background_rms p bv data =
      some w → 0 ≤ w) :=
  ⟨hstd, hmad, hbv⟩

theorem rms_estimators_nonneg_witness :
    0 ≤ (1 : ℚ) ∧ 0 ≤ (7413 / 5000 : ℚ) := by
  have e1 : ratPrims.std (clipIf ratPrims
      (BackgroundBase.make false 3 none none (some 5)) [1, 1, 3, 3]) = some 1 := by
    norm_num [ratPrims, clipIf, BackgroundBase.make, stdQ, varQ, meanQ, sqrtQ]
  have e2 : ratPrims.mad_std (clipIf ratPrims
      (BackgroundBase.make false 3 none none (some 5)) [1, 1, 3, 3]) =
      some (7413 / 5000) := by
    norm_num [ratPrims, clipIf, BackgroundBase.make, madStdSpec, madQ, medianQ,
      List.insertionSort, List.orderedInsert]
  have e3 : ratPrims.biweight_midvariance (clipIf ratPrims
      (BiweightMidvarianceBackgroundRMS.make 9 none false 3 none none
        (some 5)).toBase [1, 1, 3, 3])
      (BiweightMidvarianceBackgroundRMS.make 9 none false 3 none none (some 5)).c
      (BiweightMidvarianceBackgroundRMS.make 9 none false 3 none none (some 5)).M =
      some 1 := by
    norm_num [ratPrims, clipIf, BiweightMidvarianceBackgroundRMS.make,
      BackgroundBase.make, stdQ, varQ, meanQ, sqrtQ]
  have h := rms_estimators_nonneg ratPrims
      (BackgroundBase.make false 3 none none (some 5))
      (BiweightMidvarianceBackgroundRMS.make 9 none false 3 none none (some 5))
      [1, 1, 3, 3]
      (fun w hw => by rw [e1] at hw; cases hw; norm_num)
      (fun w hw => by rw [e2] at hw; cases hw; norm_num)
      (fun w hw => by rw [e3] at hw; cases hw; norm_num)
  refine ⟨h.1 1 ?_, h.2.1 (7413 / 5000) ?_⟩
  · show ratPrims.std (clipIf ratPrims
      (BackgroundBase.make false 3 none none (some 5)) [1, 1, 3, 3]) = some 1
    exact e1
  · show ratPrims.mad_std (clipIf ratPrims
      (BackgroundBase.make false 3 none none (some 5)) [1, 1, 3, 3]) =
      some (7413 / 5000)
    exact e2

/-- Claim C7: two successive invocations of the compute operation on the same
configuration and the same data yield identical results: the second call,
run on the state left by the first, returns the same value. -/
theorem repeated_calls_identical (p : Primitives) (s : BackgroundBase)
    (bl : BiweightLocationBackground) (bv : BiweightMidvarianceBackgroundRMS)
    (data : List ℚ) :
    (MeanBackground.run p s data).1 =
      (MeanBackground.run p (MeanBackground.run p s data).2 data).1 ∧
    (MedianBackground.run p s data).1 =
      (MedianBackground.run p (MedianBackground.run p s data).2 data).1 ∧
    (MMMBackground.run p s data).1 =
      (MMMBackground.run p (MMMBackground.run p s data).2 data).1 ∧
    (SExtractorBackground.run p s data).1 =
      (SExtractorBackground.run p (SExtractorBackground.run p s data).2 data).1 ∧
    (BiweightLocationBackground.run p bl data).1 =
      (BiweightLocationBackground.run p
        (BiweightLocationBackground.run p bl data).2 data).1 ∧
    (StdBackgroundRMS.run p s data).1 =
      (StdBackgroundRMS.run p (StdBackgroundRMS.run p s data).2 data).1 ∧
    (MADStdBackgroundRMS.run p s data).1 =
      (MADStdBackgroundRMS.run p (MADStdBackgroundRMS.run p s data).2 data).1 ∧
    (BiweightMidvarianceBackgroundRMS.run p bv data).1 =
      (BiweightMidvarianceBackgroundRMS.run p
        (BiweightMidvarianceBackgroundRMS.run p bv data).2 data).1 :=
  ⟨rfl, rfl, rfl, rfl, rfl, rfl, rfl, rfl⟩

/-- Claim C8: invoking the compute operation leaves every configuration field
(sigclip, sigma, sigma_lower, sigma_upper, iteration cap and, where present,
c and M) unchanged: the state returned by each run equals the state it
received. -/
theorem calc_preserves_config (p : Primitives) (s : BackgroundBase)
    (bl : BiweightLocationBackground) (bv : BiweightMidvarianceBackgroundRMS)
    (data : List ℚ) :
    (MeanBackground.run p s data).2.sigclip = s.sigclip ∧
    (MeanBackground.run p s data).2.sigma = s.sigma ∧
    (MeanBackground.run p s data).2.sigma_lower = s.sigma_lower ∧
    (MeanBackground.run p s data).2.sigma_upper = s.sigma_upper ∧
    (MeanBackground.run p s data).2.iters = s.iters ∧
    (MeanBackground.run p s data).2 = s ∧
    (MedianBackground.run p s data).2 = s ∧
    (MMMBackground.run p s data).2 = s ∧
    (SExtractorBackground.run p s data).2 = s ∧
    (BiweightLocationBackground.run p bl data).2.c = bl.c ∧
    (BiweightLocationBackground.run p bl data).2.M = bl.M ∧
    (BiweightLocationBackground.run p bl data).2 = bl ∧
    (StdBackgroundRMS.run p s data).2 = s ∧
    (MADStdBackgroundRMS.run p s data).2 = s ∧
    (BiweightMidvarianceBackgroundRMS.run p bv data).2.c = bv.c ∧
    (BiweightMidvarianceBackgroundRMS.run p bv data).2.M = bv.M ∧
    (BiweightMidvarianceBackgroundRMS.run p bv data).2 = bv :=
  ⟨rfl, rfl, rfl, rfl, rfl, rfl, rfl, rfl, rfl, rfl, rfl, rfl, rfl, rfl, rfl,
   rfl, rfl⟩

/-- Claim C9: MADStdBackgroundRMS returns 1.4826 times the median absolute
deviation of the (optionally clipped) unmasked values, given that the
external mad_std primitive meets its stated contract of scaling the MAD by
the constant 1.4826. -/
theorem madstd_is_scaled_mad (p : Primitives) (cfg : BackgroundBase)
    (data : List ℚ)
    (h : p.mad_std (clipIf p cfg data) = madStdSpec (clipIf p cfg data)) :
    MADStdBackgroundRMS.calc_background_rms p cfg data =
      (madQ (clipIf p cfg data)).map (fun x => 14826 / 10000 * x) := by
  show p.mad_std (clipIf p cfg data) = _
  rw [h]
  rfl

theorem madstd_is_scaled_mad_witness :
    MADStdBackgroundRMS.calc_background_rms ratPrims
      (BackgroundBase.make false 3 none none (some 5)) [1, 1, 3, 3] =
      some (7413 / 5000) := by
  have h := madstd_is_scaled_mad ratPrims
      (BackgroundBase.make false 3 none none (some 5)) [1, 1, 3, 3] rfl
  rw [h]
  norm_num [clipIf, BackgroundBase.make, madQ, medianQ, List.insertionSort,
    List.orderedInsert]

/-- Claim C10: construction of any estimator configuration succeeds for every
combination of argument values, negative sigma, negative iteration cap and
negative tuning constant included, and stores the supplied values verbatim in
the corresponding fields: the constructors are total and validate nothing. -/
theorem constructors_store_verbatim (sigclip : Bool) (sigma : ℚ)
    (sigma_lower sigma_upper : Option ℚ) (iters : Option ℤ) (cL cV : ℚ)
    (ML MV : Option ℚ) :
    (BackgroundBase.make sigclip sigma sigma_lower sigma_upper iters).sigclip =
      sigclip ∧
    (BackgroundBase.make sigclip sigma sigma_lower sigma_upper iters).sigma =
      sigma ∧
    (BackgroundBase.make sigclip sigma sigma_lower sigma_upper
      iters).sigma_lower = sigma_lower ∧
    (BackgroundBase.make sigclip sigma sigma_lower sigma_upper
      iters).sigma_upper = sigma_upper ∧
    (BackgroundBase.make sigclip sigma sigma_lower sigma_upper iters).iters =
      iters ∧
    (BiweightLocationBackground.make cL ML sigclip sigma sigma_lower
      sigma_upper iters).c = cL ∧
    (BiweightLocationBackground.make cL ML sigclip sigma sigma_lower
      sigma_upper iters).M = ML ∧
    (BiweightLocationBackground.make cL ML sigclip sigma sigma_lower
      sigma_upper iters).toBase =
      BackgroundBase.make sigclip sigma sigma_lower sigma_upper iters ∧
    (BiweightMidvarianceBackgroundRMS.make cV MV sigclip sigma sigma_lower
      sigma_upper iters).c = cV ∧
    (BiweightMidvarianceBackgroundRMS.make cV MV sigclip sigma sigma_lower
      sigma_upper iters).M = MV ∧
    (BiweightMidvarianceBackgroundRMS.make cV MV sigclip sigma sigma_lower
      sigma_upper iters).toBase =
      BackgroundBase.make sigclip sigma sigma_lower sigma_upper iters :=
  ⟨rfl, rfl, rfl, rfl, rfl, rfl, rfl, rfl, rfl, rfl, rfl⟩
